import Mathlib

/-
  Verification of the ride-booking workflow service.

  Shallow embedding of the ride lifecycle code:
    - data model:        src/models/index.ts (RideAttributes, DriverAttributes)
    - rider data access: src/apps/riders/data-access/riderDataAccess.ts
    - driver data access: src/apps/drivers/data-access/driverDataAccess.ts
    - rider service:     src/apps/riders/domain/riderService.ts
    - driver service:    src/apps/drivers/domain/driverService.ts (acceptRide)

  The database is modelled as an explicit store (lists of ride and driver
  rows); every data-access method becomes a pure function from stores to
  stores.  Fallible service calls return an Except of the error taxonomy
  from src/libraries/responses/index.ts.  Values supplied by the runtime
  (generated UUIDs, the current clock, the random estimated distance) are
  passed as explicit parameters.  Timestamps are modelled as naturals.
-/

namespace RideBooking

/-- Ride status enum, src/models/index.ts: RideStatus. -/
inductive RideStatus
  | requested
  | in_progress
  | completed
  | canceled
deriving DecidableEq

/-- Driver status enum, src/models/index.ts: DriverAttributes.status. -/
inductive DriverStatus
  | online
  | busy
  | offline
deriving DecidableEq

/-- Error taxonomy, src/libraries/responses/index.ts: enum ErrorType. -/
inductive ErrorType
  | NOT_FOUND
  | UNAUTHORIZED
  | BAD_REQUEST
  | FORBIDDEN
  | CONFLICT
  | SERVER_ERROR
  | VALIDATION_ERROR
deriving DecidableEq

/-- Driver row, src/models/index.ts: DriverAttributes (location fields omitted;
no claim mentions them and no workflow-service operation reads or writes them). -/
structure Driver where
  driver_id : String
  name : String
  email : String
  phone_number : String
  license_number : String
  password : String
  status : DriverStatus
  created_at : Nat
  updated_at : Nat
deriving DecidableEq

/-- Ride row, src/models/index.ts: RideAttributes.  The fare column is
DECIMAL(10,2); it is modelled as a rational. -/
structure Ride where
  ride_id : String
  driver_id : Option String
  user_id : String
  start_time : Option Nat
  end_time : Option Nat
  pickup_location : String
  dropoff_location : String
  fare : ℚ
  status : RideStatus
  created_at : Nat
  updated_at : Nat
deriving DecidableEq

/-- The database: the rides and drivers tables. -/
structure Store where
  rides : List Ride
  drivers : List Driver
deriving DecidableEq

/-- The empty database. -/
def emptyStore : Store := ⟨[], []⟩

/-- riderDataAccess.findRideById: Ride.findOne({ where: { ride_id: rideId } }). -/
def findRideById (s : Store) (rideId : String) : Option Ride :=
  s.rides.find? (fun r => r.ride_id == rideId)

/-- driverDataAccess.findDriverById: Driver.findOne({ where: { driver_id: driverId } }). -/
def findDriverById (s : Store) (driverId : String) : Option Driver :=
  s.drivers.find? (fun d => d.driver_id == driverId)

/-- The row-level effect of the UPDATE issued by riderDataAccess.updateRideStatus:
sets status, and sets driver_id only when the driverId argument was passed
(TS: if (driverId !== undefined) updatePayload.driver_id = driverId; the
argument has type string or null, hence Option (Option String): none models
the argument being absent, some v models passing v). -/
def applyRideUpdate (status : RideStatus) (driverId : Option (Option String))
    (r : Ride) : Ride :=
  { r with
    status := status
    driver_id := match driverId with
      | none => r.driver_id
      | some v => v }

/-- riderDataAccess.updateRideStatus (src/apps/riders/data-access/riderDataAccess.ts,
lines 80-115): effect of the UPDATE statement on the rides table — the WHERE
clause matches on ride_id alone, with no condition on the current status. -/
def ridesUpdated (s : Store) (rideId : String) (status : RideStatus)
    (driverId : Option (Option String)) : Store :=
  { s with rides := s.rides.map (fun r => if r.ride_id == rideId then applyRideUpdate status driverId r else r) }

/-- riderDataAccess.updateRideStatus: issues the UPDATE; if affectedCount is 0
it returns null and changes nothing; otherwise it re-reads the row with
findOne and returns it. -/
def updateRideStatus (s : Store) (rideId : String) (status : RideStatus)
    (driverId : Option (Option String)) : Option Ride × Store :=
  if s.rides.any (fun r => r.ride_id == rideId) then
    let s1 := ridesUpdated s rideId status driverId
    (findRideById s1 rideId, s1)
  else
    (none, s)

/-- driverDataAccess.updateDriverStatus (src/apps/drivers/data-access/driverDataAccess.ts,
lines 134-153): findOne by driver_id, null if absent, otherwise
driver.update({ status }) and return the updated row. -/
def driversUpdated (s : Store) (driverId : String) (status : DriverStatus) : Store :=
  { s with drivers := s.drivers.map (fun x => if x.driver_id == driverId then { x with status := status } else x) }

/-- driverDataAccess.updateDriverStatus: findOne by driver_id, null if absent,
otherwise the row update above.  NOTE: this method has no options parameter —
a transaction passed by a caller as a third argument is silently dropped, so
this write always runs auto-committed. -/
def updateDriverStatus (s : Store) (driverId : String) (status : DriverStatus) :
    Option Driver × Store :=
  match findDriverById s driverId with
  | none => (none, s)
  | some d =>
    (some { d with status := status }, driversUpdated s driverId status)

/-- riderDataAccess.createRideRequest (lines 17-31): creates the row with
driver_id: null, status: "requested", start_time: new Date(); end_time is
not supplied and the column is nullable, so it is null.  The generated
ride_id and the clock are explicit parameters.  This is the created row. -/
def newRideRow (user_id pickup_location dropoff_location : String)
    (fare : ℚ) (newRideId : String) (now : Nat) : Ride :=
  { ride_id := newRideId
    driver_id := none
    user_id := user_id
    start_time := some now
    end_time := none
    pickup_location := pickup_location
    dropoff_location := dropoff_location
    fare := fare
    status := RideStatus.requested
    created_at := now
    updated_at := now }

/-- riderDataAccess.createRideRequest: Ride.create of the row above, appended
to the rides table. -/
def createRideRequest (s : Store) (user_id pickup_location dropoff_location : String)
    (fare : ℚ) (newRideId : String) (now : Nat) : Ride × Store :=
  let ride := newRideRow user_id pickup_location dropoff_location fare newRideId now
  (ride, { s with rides := s.rides ++ [ride] })

/-- Ordering used by getUserRides: ORDER BY created_at DESC. -/
def newerFirst (a b : Ride) : Prop := b.created_at ≤ a.created_at

instance : DecidableRel newerFirst := fun a b => Nat.decLe b.created_at a.created_at

instance : IsTotal Ride newerFirst :=
  ⟨fun a b => (Nat.le_total b.created_at a.created_at).elim Or.inl Or.inr⟩

instance : IsTrans Ride newerFirst :=
  ⟨fun _ _ _ hab hbc => Nat.le_trans hbc hab⟩

/-- riderDataAccess.getUserRides (lines 38-52): findAll where user_id = userId,
ordered by created_at descending. -/
def getUserRides (s : Store) (userId : String) : List Ride :=
  List.insertionSort newerFirst (s.rides.filter (fun r => r.user_id == userId))

/-- riderService.calculateFare (src/apps/riders/domain/riderService.ts,
lines 97-108): baseFare 5.0 plus perKmRate 2.0 times the estimated distance,
then Number(x.toFixed(2)) — rounding to two decimal places.  The estimated
distance, Math.random() * 10 + 1 in the source, is an explicit parameter. -/
def calculateFare (estimatedDistance : ℚ) : ℚ :=
  ((round ((5 + 2 * estimatedDistance) * 100) : ℤ) : ℚ) / 100

/-- riderService.requestRide (lines 10-39): computes the fare and creates the
ride row.  The catch branch only maps persistence failures, which the store
model cannot produce, so creation always succeeds here. -/
def requestRide (s : Store) (userId pickupLocation dropoffLocation : String)
    (estimatedDistance : ℚ) (newRideId : String) (now : Nat) :
    Except ErrorType Ride × Store :=
  let fare := calculateFare estimatedDistance
  let rs := createRideRequest s userId pickupLocation dropoffLocation fare newRideId now
  (Except.ok rs.1, rs.2)

/-- riderService.getUserRideHistory (lines 41-50): returns getUserRides;
performs no write. -/
def getUserRideHistory (s : Store) (userId : String) : List Ride :=
  getUserRides s userId

/-- riderService.cancelRide (lines 52-95): ownership and state checks, then
updateRideStatus(rideId, "canceled") — called without a driverId argument, so
driver_id is left as it was — then, best-effort, the assigned driver (if any)
is set back to online, the result of that update being ignored. -/
def cancelRide (s : Store) (userId rideId : String) : Except ErrorType Ride × Store :=
  match findRideById s rideId with
  | none => (Except.error ErrorType.NOT_FOUND, s)
  | some ride =>
    if ride.user_id ≠ userId then
      (Except.error ErrorType.FORBIDDEN, s)
    else if ride.status ≠ RideStatus.requested ∧ ride.status ≠ RideStatus.in_progress then
      (Except.error ErrorType.BAD_REQUEST, s)
    else
      match updateRideStatus s rideId RideStatus.canceled none with
      | (none, s1) => (Except.error ErrorType.SERVER_ERROR, s1)
      | (some updatedRide, s1) =>
        match ride.driver_id with
        | some did => (Except.ok updatedRide, (updateDriverStatus s1 did DriverStatus.online).2)
        | none => (Except.ok updatedRide, s1)

/-- driverService.acceptRide (src/apps/drivers/domain/driverService.ts,
lines 162-220), sequential (single-call) semantics.  The body runs inside
sequelize.transaction; any throw rolls the transaction back, so every failure
path returns the original store.  On the path where updateDriverStatus
returns null no driver row was written, so rolling back to the original
store is exact even though that write would not have been covered by the
transaction (see the machine model below for the interleaved semantics). -/
def acceptRide (s : Store) (driverId rideId : String) : Except ErrorType Ride × Store :=
  match findDriverById s driverId with
  | none => (Except.error ErrorType.NOT_FOUND, s)
  | some driver =>
    if driver.status ≠ DriverStatus.online then
      (Except.error ErrorType.BAD_REQUEST, s)
    else
      match findRideById s rideId with
      | none => (Except.error ErrorType.NOT_FOUND, s)
      | some ride =>
        if ride.status ≠ RideStatus.requested then
          (Except.error ErrorType.BAD_REQUEST, s)
        else
          match updateRideStatus s rideId RideStatus.in_progress (some (some driverId)) with
          | (none, _) => (Except.error ErrorType.SERVER_ERROR, s)
          | (some updatedRide, s1) =>
            match updateDriverStatus s1 driverId DriverStatus.busy with
            | (none, _) => (Except.error ErrorType.SERVER_ERROR, s)
            | (some _, s2) => (Except.ok updatedRide, s2)

/-- driverService.registerDriver (lines 16-45): reject a duplicate email with
CONFLICT, otherwise create the driver with status "offline"
(driverDataAccess.createDriver hashes the password and sets status offline;
the hash value is opaque here and kept as given). -/
def registerDriver (s : Store) (name email phone_number license_number password : String)
    (newDriverId : String) (now : Nat) : Except ErrorType Driver × Store :=
  match s.drivers.find? (fun d => d.email == email) with
  | some _ => (Except.error ErrorType.CONFLICT, s)
  | none =>
    let d : Driver :=
      { driver_id := newDriverId
        name := name
        email := email
        phone_number := phone_number
        license_number := license_number
        password := password
        status := DriverStatus.offline
        created_at := now
        updated_at := now }
    (Except.ok d, { s with drivers := s.drivers ++ [d] })

/-- driverService.updateDriverStatus (lines 141-162): data-access update,
NOT_FOUND when it reports null. -/
def updateDriverStatusService (s : Store) (driverId : String) (status : DriverStatus) :
    Except ErrorType Driver × Store :=
  match updateDriverStatus s driverId status with
  | (none, s1) => (Except.error ErrorType.NOT_FOUND, s1)
  | (some d, s1) => (Except.ok d, s1)

/-- One service-level operation, with all runtime-supplied values
(generated ids, clock, random distance) as explicit data. -/
inductive Op
  | requestRide (userId pickupLocation dropoffLocation : String)
      (estimatedDistance : ℚ) (newRideId : String) (now : Nat)
  | getUserRideHistory (userId : String)
  | cancelRide (userId rideId : String)
  | acceptRide (driverId rideId : String)
  | registerDriver (name email phone_number license_number password : String)
      (newDriverId : String) (now : Nat)
  | updateDriverStatus (driverId : String) (status : DriverStatus)

/-- Effect of one operation on the store (result values discarded). -/
def applyOp (s : Store) : Op → Store
  | Op.requestRide u p d q id now => (requestRide s u p d q id now).2
  | Op.getUserRideHistory _ => s
  | Op.cancelRide u r => (cancelRide s u r).2
  | Op.acceptRide d r => (acceptRide s d r).2
  | Op.registerDriver n e ph lic pw id now => (registerDriver s n e ph lic pw id now).2
  | Op.updateDriverStatus d st => (updateDriverStatusService s d st).2

/-- States reachable from the empty store by a sequence of operations. -/
def runOps (ops : List Op) : Store := ops.foldl applyOp emptyStore

/-
  Interleaved semantics of acceptRide (driverService.ts lines 162-220).

  One acceptRide call issues, in order, these database operations:
    1. findDriverById    — a plain read, no transaction (the source comment on
       line 165 notes findById has no transaction option),
    2. findRideById      — a plain read, no transaction (same remark, line 177),
    3. updateRideStatus(rideId, "in_progress", driverId, { transaction: t })
       — an UPDATE inside transaction t followed by a findOne inside t; the
       WHERE clause matches on ride_id only,
    4. updateDriverStatus(driverId, "busy", { transaction: t }) — but the
       data-access method (driverDataAccess.ts lines 134-153) has no options
       parameter, so the write runs auto-committed, outside t,
    5. commit of t (automatic when the callback returns).

  The machine below gives each call a phase and runs the calls one database
  operation at a time against the committed store, the standard READ COMMITTED
  model: each statement sees the committed state plus the transaction-local
  pending write.  Step 3 bundles the UPDATE with its in-transaction findOne:
  both touch only the locked ride row, so nothing can be observed between
  them.  Failure at any step ends the call with the thrown error and discards
  the pending ride write (rollback of t).
-/

/-- Result of a finished acceptRide call. -/
abbrev AcceptResult := Except ErrorType Ride

instance : DecidableEq AcceptResult := fun a b =>
  match a, b with
  | Except.error x, Except.error y =>
    if h : x = y then isTrue (by rw [h]) else isFalse (fun hc => h (by injection hc))
  | Except.error _, Except.ok _ => isFalse (fun hc => Except.noConfusion hc)
  | Except.ok _, Except.error _ => isFalse (fun hc => Except.noConfusion hc)
  | Except.ok x, Except.ok y =>
    if h : x = y then isTrue (by rw [h]) else isFalse (fun hc => h (by injection hc))

/-- Progress of one in-flight acceptRide call.  The pending ride row carried
by the two middle phases is the transaction-local write of step 3, invisible
to the committed store until commit. -/
inductive Phase
  | start
  | driverChecked
  | rideChecked
  | rideUpdated (pending : Ride)
  | driverUpdated (pending : Ride)
  | finished (result : AcceptResult)
deriving DecidableEq

/-- One in-flight acceptRide call. -/
structure CallState where
  driverId : String
  rideId : String
  phase : Phase
deriving DecidableEq

/-- An acceptRide call about to start. -/
def startCall (driverId rideId : String) : CallState :=
  ⟨driverId, rideId, Phase.start⟩

/-- One database operation of one acceptRide call, against the committed
store.  Each branch transcribes the corresponding statement of
driverService.acceptRide. -/
def stepCall (s : Store) (c : CallState) : Store × CallState :=
  match c.phase with
  | Phase.start =>
    match findDriverById s c.driverId with
    | none => (s, { c with phase := Phase.finished (Except.error ErrorType.NOT_FOUND) })
    | some driver =>
      if driver.status ≠ DriverStatus.online then
        (s, { c with phase := Phase.finished (Except.error ErrorType.BAD_REQUEST) })
      else
        (s, { c with phase := Phase.driverChecked })
  | Phase.driverChecked =>
    match findRideById s c.rideId with
    | none => (s, { c with phase := Phase.finished (Except.error ErrorType.NOT_FOUND) })
    | some ride =>
      if ride.status ≠ RideStatus.requested then
        (s, { c with phase := Phase.finished (Except.error ErrorType.BAD_REQUEST) })
      else
        (s, { c with phase := Phase.rideChecked })
  | Phase.rideChecked =>
    match findRideById s c.rideId with
    | none =>
      (s, { c with phase := Phase.finished (Except.error ErrorType.SERVER_ERROR) })
    | some ride =>
      (s, { c with phase :=
        Phase.rideUpdated (applyRideUpdate RideStatus.in_progress (some (some c.driverId)) ride) })
  | Phase.rideUpdated pending =>
    match updateDriverStatus s c.driverId DriverStatus.busy with
    | (none, _) =>
      (s, { c with phase := Phase.finished (Except.error ErrorType.SERVER_ERROR) })
    | (some _, s1) =>
      (s1, { c with phase := Phase.driverUpdated pending })
  | Phase.driverUpdated pending =>
    let rides1 := s.rides.map (fun r => if r.ride_id == c.rideId then pending else r)
    ({ s with rides := rides1 }, { c with phase := Phase.finished (Except.ok pending) })
  | Phase.finished _ => (s, c)

/-- Interleave two acceptRide calls: the schedule picks which call performs
its next database operation (true = first call, false = second call). -/
def runSched (s : Store) (c1 c2 : CallState) : List Bool → Store × CallState × CallState
  | [] => (s, c1, c2)
  | true :: rest =>
    let sc := stepCall s c1
    runSched sc.1 sc.2 c2 rest
  | false :: rest =>
    let sc := stepCall s c2
    runSched sc.1 c1 sc.2 rest

/-- Whether a call has finished successfully. -/
def CallState.succeeded (c : CallState) : Bool :=
  match c.phase with
  | Phase.finished (Except.ok _) => true
  | _ => false

/-- Concrete driver row used by witnesses and counterexamples. -/
def driverRow (did : String) (st : DriverStatus) : Driver :=
  { driver_id := did
    name := "N"
    email := did
    phone_number := "0"
    license_number := "L"
    password := "h"
    status := st
    created_at := 0
    updated_at := 0 }

/-- Concrete requested ride owned by rider u1, used by witnesses and
counterexamples. -/
def requestedRide : Ride :=
  { ride_id := "r1"
    driver_id := none
    user_id := "u1"
    start_time := some 0
    end_time := none
    pickup_location := "A"
    dropoff_location := "B"
    fare := 9
    status := RideStatus.requested
    created_at := 0
    updated_at := 0 }

/-- Store with one requested ride and two online drivers. -/
def twoDriverStore : Store :=
  { rides := [requestedRide]
    drivers := [driverRow "d1" DriverStatus.online, driverRow "d2" DriverStatus.online] }

/-- Concrete ride already claimed by driver d1 (status in_progress). -/
def inProgressRide : Ride :=
  { requestedRide with status := RideStatus.in_progress, driver_id := some "d1" }

/-- Store whose only ride is already in_progress. -/
def claimedRideStore : Store :=
  { rides := [inProgressRide], drivers := [driverRow "d1" DriverStatus.busy] }

/-- Concrete operation sequence: a driver registers and goes online, a rider
requests a ride, the driver accepts it, the rider cancels it. -/
def acceptThenCancelOps : List Op :=
  [Op.registerDriver "N" "d1" "0" "L" "h" "d1" 0,
   Op.updateDriverStatus "d1" DriverStatus.online,
   Op.requestRide "u1" "A" "B" 2 "r1" 1,
   Op.acceptRide "d1" "r1",
   Op.cancelRide "u1" "r1"]

/-- The per-ride driver-assignment invariant that actually holds in every
reachable state: a requested ride has no driver, an in_progress or completed
ride has one; a canceled ride may have either, because cancelRide does not
clear driver_id. -/
def rideDriverInv (r : Ride) : Prop :=
  (r.status = RideStatus.requested → r.driver_id = none) ∧
  ((r.status = RideStatus.in_progress ∨ r.status = RideStatus.completed) →
    r.driver_id ≠ none)

/-- The ride produced by the trace acceptThenCancelOps: requested at time 1
with fare calculateFare 2 = 9, then claimed by d1, then canceled with the
driver assignment left in place. -/
def canceledAssignedRide : Ride :=
  { ride_id := "r1"
    driver_id := some "d1"
    user_id := "u1"
    start_time := some 1
    end_time := none
    pickup_location := "A"
    dropoff_location := "B"
    fare := 9
    status := RideStatus.canceled
    created_at := 1
    updated_at := 1 }

/-
  Helper lemmas about find? over the row-update maps used by the data layer.
-/

theorem find?_key_map {α : Type} (key : α → String) (k : String) (f : α → α)
    (hf : ∀ x, key (f x) = key x) (l : List α) :
    (l.map (fun x => if key x == k then f x else x)).find? (fun x => key x == k)
      = (l.find? (fun x => key x == k)).map f := by
  induction l with
  | nil => rfl
  | cons a t ih =>
    simp only [List.map_cons]
    by_cases h : (key a == k) = true
    · have hpa : (key (f a) == k) = true := by rw [hf]; exact h
      rw [if_pos h]
      simp only [List.find?, hpa, h, Option.map_some']
    · have h0 : (key a == k) = false := by simpa using h
      rw [if_neg h]
      simp only [List.find?, h0, ih]

theorem find?_key_map_ne {α : Type} (key : α → String) (k k2 : String) (f : α → α)
    (hf : ∀ x, key (f x) = key x) (hne : k2 ≠ k) (l : List α) :
    (l.map (fun x => if key x == k then f x else x)).find? (fun x => key x == k2)
      = l.find? (fun x => key x == k2) := by
  induction l with
  | nil => rfl
  | cons a t ih =>
    simp only [List.map_cons]
    by_cases h : (key a == k) = true
    · have hk : key a = k := by simpa using h
      have hpa : (key (f a) == k2) = false := by
        rw [hf, hk]; simp only [beq_eq_false_iff_ne]; exact Ne.symm hne
      have hpa2 : (key a == k2) = false := by
        rw [hk]; simp only [beq_eq_false_iff_ne]; exact Ne.symm hne
      rw [if_pos h]
      simp only [List.find?, hpa, hpa2, ih]
    · rw [if_neg h]
      by_cases h2 : (key a == k2) = true
      · simp only [List.find?, h2]
      · have h20 : (key a == k2) = false := by simpa using h2
        simp only [List.find?, h20, ih]

theorem any_key_of_find? {α : Type} (p : α → Bool) (l : List α) (x : α)
    (h : l.find? p = some x) : l.any p = true :=
  List.any_eq_true.mpr ⟨x, List.mem_of_find?_eq_some h, List.find?_some h⟩

theorem any_key_of_find?_none {α : Type} (p : α → Bool) (l : List α)
    (h : l.find? p = none) : l.any p = false := by
  rw [List.any_eq_false]
  intro x hm
  exact (List.find?_eq_none.mp h) x hm

/-
  Characterization of the data-access operations.
-/

theorem applyRideUpdate_ride_id (st : RideStatus) (dv : Option (Option String)) (r : Ride) :
    (applyRideUpdate st dv r).ride_id = r.ride_id := rfl

theorem updateRideStatus_found (s : Store) (rid : String) (st : RideStatus)
    (dv : Option (Option String)) (r : Ride) (h : findRideById s rid = some r) :
    updateRideStatus s rid st dv =
      (some (applyRideUpdate st dv r), ridesUpdated s rid st dv) := by
  have hany : s.rides.any (fun x => x.ride_id == rid) = true := any_key_of_find? _ _ _ h
  unfold updateRideStatus
  rw [if_pos hany]
  have hmap := find?_key_map (fun x : Ride => x.ride_id) rid (applyRideUpdate st dv)
    (fun _ => rfl) s.rides
  simp only [findRideById, ridesUpdated] at h ⊢
  rw [hmap, h]
  rfl

theorem updateRideStatus_none (s : Store) (rid : String) (st : RideStatus)
    (dv : Option (Option String)) (h : findRideById s rid = none) :
    updateRideStatus s rid st dv = (none, s) := by
  have hany := any_key_of_find?_none _ _ h
  unfold updateRideStatus
  rw [if_neg (by rw [hany]; exact Bool.false_ne_true)]

theorem updateRideStatus_drivers (s : Store) (rid : String) (st : RideStatus)
    (dv : Option (Option String)) :
    (updateRideStatus s rid st dv).2.drivers = s.drivers := by
  unfold updateRideStatus
  split <;> rfl

theorem updateDriverStatus_found (s : Store) (did : String) (st : DriverStatus)
    (d : Driver) (h : findDriverById s did = some d) :
    updateDriverStatus s did st =
      (some { d with status := st }, driversUpdated s did st) := by
  unfold updateDriverStatus
  rw [h]

theorem updateDriverStatus_none (s : Store) (did : String) (st : DriverStatus)
    (h : findDriverById s did = none) :
    updateDriverStatus s did st = (none, s) := by
  unfold updateDriverStatus
  rw [h]

theorem updateDriverStatus_rides (s : Store) (did : String) (st : DriverStatus) :
    (updateDriverStatus s did st).2.rides = s.rides := by
  unfold updateDriverStatus
  cases h : findDriverById s did <;> rfl

theorem findRide_ridesUpdated_self (s : Store) (rid : String) (st : RideStatus)
    (dv : Option (Option String)) (r : Ride) (h : findRideById s rid = some r) :
    findRideById (ridesUpdated s rid st dv) rid = some (applyRideUpdate st dv r) := by
  simp only [findRideById, ridesUpdated]
  rw [find?_key_map (fun x : Ride => x.ride_id) rid (applyRideUpdate st dv) (fun _ => rfl) s.rides]
  simp only [findRideById] at h
  rw [h]
  rfl

theorem findDriver_driversUpdated_self (s : Store) (did : String) (st : DriverStatus)
    (d : Driver) (h : findDriverById s did = some d) :
    findDriverById (driversUpdated s did st) did = some { d with status := st } := by
  simp only [findDriverById, driversUpdated]
  rw [find?_key_map (fun x : Driver => x.driver_id) did (fun x => { x with status := st })
    (fun _ => rfl) s.drivers]
  simp only [findDriverById] at h
  rw [h]
  rfl

theorem findDriver_driversUpdated_other (s : Store) (did did2 : String) (st : DriverStatus)
    (hne : did2 ≠ did) :
    findDriverById (driversUpdated s did st) did2 = findDriverById s did2 := by
  simp only [findDriverById, driversUpdated]
  exact find?_key_map_ne (fun x : Driver => x.driver_id) did did2
    (fun x => { x with status := st }) (fun _ => rfl) hne s.drivers

theorem findRide_after_updateDriver (s : Store) (did : String) (st : DriverStatus)
    (rid : String) :
    findRideById (updateDriverStatus s did st).2 rid = findRideById s rid := by
  simp only [findRideById, updateDriverStatus_rides]

theorem findDriver_after_updateRide (s : Store) (rid : String) (st : RideStatus)
    (dv : Option (Option String)) (did : String) :
    findDriverById (updateRideStatus s rid st dv).2 did = findDriverById s did := by
  simp only [findDriverById, updateRideStatus_drivers]

theorem findRide_driversUpdated (s : Store) (did : String) (st : DriverStatus)
    (rid : String) :
    findRideById (driversUpdated s did st) rid = findRideById s rid := rfl

theorem findDriver_ridesUpdated (s : Store) (rid : String) (st : RideStatus)
    (dv : Option (Option String)) (did : String) :
    findDriverById (ridesUpdated s rid st dv) did = findDriverById s did := rfl

/-
  Claim C2.
-/

/-- C2 counterexample: the only ride r1 of claimedRideStore is already
in_progress and owned by driver d1, i.e. its status is no longer requested —
yet the ride-claiming write of acceptRide, updateRideStatus to in_progress
with driver d2, still modifies the row and reports success instead of
changing no row and reporting failure, contradicting the claimed
update-where-status-matches semantics. -/
theorem updateRideStatus_ignores_status :
    (updateRideStatus claimedRideStore "r1" RideStatus.in_progress (some (some "d2"))).1
      ≠ none ∧
    (updateRideStatus claimedRideStore "r1" RideStatus.in_progress (some (some "d2"))).2
      ≠ claimedRideStore := by
  decide

/-- C2 amended: the ride-claiming write inside acceptRide matches on ride_id
alone.  It reports no row changed exactly when no ride with that id exists,
in which case the store is unchanged; whenever the ride exists — whatever its
current status — the row is overwritten with the new status and driver and
the call reports success, so the SERVER_ERROR rollback path of acceptRide
fires only for a vanished ride, not for a concurrently claimed one. -/
theorem updateRideStatus_keyed_on_id_only (s : Store) (rid : String)
    (st : RideStatus) (dv : Option (Option String)) :
    ((updateRideStatus s rid st dv).1 = none ↔ findRideById s rid = none) ∧
    (findRideById s rid = none → (updateRideStatus s rid st dv).2 = s) ∧
    (∀ r, findRideById s rid = some r →
      (updateRideStatus s rid st dv).1 = some (applyRideUpdate st dv r) ∧
      findRideById (updateRideStatus s rid st dv).2 rid
        = some (applyRideUpdate st dv r)) := by
  refine ⟨⟨fun h1 => ?_, fun h2 => ?_⟩, fun h2 => ?_, fun r hr => ?_⟩
  · by_contra hne
    rcases Option.ne_none_iff_exists'.mp hne with ⟨r, hr⟩
    rw [updateRideStatus_found s rid st dv r hr] at h1
    exact Option.some_ne_none _ h1
  · rw [updateRideStatus_none s rid st dv h2]
  · rw [updateRideStatus_none s rid st dv h2]
  · constructor
    · rw [updateRideStatus_found s rid st dv r hr]
    · rw [updateRideStatus_found s rid st dv r hr]
      exact findRide_ridesUpdated_self s rid st dv r hr

/-- C2 amended, witness at a concrete store: the ride exists, so the write
succeeds and the re-read row carries the new status and driver. -/
theorem updateRideStatus_keyed_on_id_only_witness :
    findRideById claimedRideStore "r1" = some inProgressRide ∧
    (updateRideStatus claimedRideStore "r1" RideStatus.in_progress (some (some "d2"))).1
      = some (applyRideUpdate RideStatus.in_progress (some (some "d2")) inProgressRide) :=
  ⟨by decide,
   ((updateRideStatus_keyed_on_id_only claimedRideStore "r1" RideStatus.in_progress
      (some (some "d2"))).2.2 inProgressRide (by decide)).1⟩

/-
  Claim C4.
-/

/-- Evaluating acceptRide on the happy path: driver found and online, ride
found and requested — both updates succeed and the transaction commits. -/
theorem acceptRide_success_eq (s : Store) (did rid : String) (d : Driver) (r : Ride)
    (hd : findDriverById s did = some d) (hon : d.status = DriverStatus.online)
    (hr : findRideById s rid = some r) (hreq : r.status = RideStatus.requested) :
    acceptRide s did rid =
      (Except.ok (applyRideUpdate RideStatus.in_progress (some (some did)) r),
       driversUpdated (ridesUpdated s rid RideStatus.in_progress (some (some did)))
         did DriverStatus.busy) := by
  have hupd := updateRideStatus_found s rid RideStatus.in_progress (some (some did)) r hr
  have hd1 : findDriverById (ridesUpdated s rid RideStatus.in_progress (some (some did))) did
      = some d := hd
  have hdu := updateDriverStatus_found _ did DriverStatus.busy d hd1
  simp [acceptRide, hd, hon, hr, hreq, hupd, hdu]

/-- C4: acceptRide fails NOT_FOUND when the driver or the ride is absent
(store unchanged), BAD_REQUEST when the driver is not online or the ride is
not requested (store unchanged), and otherwise returns the ride with status
in_progress and driver_id set to the accepting driver, with that driver
stored as busy. -/
theorem acceptRide_case_analysis (s : Store) (did rid : String) :
    (findDriverById s did = none →
      acceptRide s did rid = (Except.error ErrorType.NOT_FOUND, s)) ∧
    (∀ d, findDriverById s did = some d → d.status ≠ DriverStatus.online →
      acceptRide s did rid = (Except.error ErrorType.BAD_REQUEST, s)) ∧
    (∀ d, findDriverById s did = some d → d.status = DriverStatus.online →
      findRideById s rid = none →
      acceptRide s did rid = (Except.error ErrorType.NOT_FOUND, s)) ∧
    (∀ d r, findDriverById s did = some d → d.status = DriverStatus.online →
      findRideById s rid = some r → r.status ≠ RideStatus.requested →
      acceptRide s did rid = (Except.error ErrorType.BAD_REQUEST, s)) ∧
    (∀ d r, findDriverById s did = some d → d.status = DriverStatus.online →
      findRideById s rid = some r → r.status = RideStatus.requested →
      ∃ r2, (acceptRide s did rid).1 = Except.ok r2 ∧
        r2.status = RideStatus.in_progress ∧
        r2.driver_id = some did ∧
        findRideById (acceptRide s did rid).2 rid = some r2 ∧
        findDriverById (acceptRide s did rid).2 did
          = some { d with status := DriverStatus.busy }) := by
  refine ⟨fun h => ?_, fun d hd hns => ?_, fun d hd hon h => ?_,
    fun d r hd hon hr hnr => ?_, fun d r hd hon hr hreq => ?_⟩
  · simp [acceptRide, h]
  · simp [acceptRide, hd, hns]
  · simp [acceptRide, hd, hon, h]
  · simp [acceptRide, hd, hon, hr, hnr]
  · refine ⟨applyRideUpdate RideStatus.in_progress (some (some did)) r, ?_, rfl, rfl, ?_, ?_⟩
    · rw [acceptRide_success_eq s did rid d r hd hon hr hreq]
    · rw [acceptRide_success_eq s did rid d r hd hon hr hreq]
      rw [findRide_driversUpdated]
      exact findRide_ridesUpdated_self s rid RideStatus.in_progress (some (some did)) r hr
    · rw [acceptRide_success_eq s did rid d r hd hon hr hreq]
      exact findDriver_driversUpdated_self _ did DriverStatus.busy d hd

/-- Evaluating acceptRide when the ride exists but is not requested: the
check on line 183 of driverService.ts throws BAD_REQUEST and the transaction
leaves the store untouched. -/
theorem acceptRide_badRequest_ride (s : Store) (did rid : String) (d : Driver) (r : Ride)
    (hd : findDriverById s did = some d) (hon : d.status = DriverStatus.online)
    (hr : findRideById s rid = some r) (hnr : r.status ≠ RideStatus.requested) :
    acceptRide s did rid = (Except.error ErrorType.BAD_REQUEST, s) := by
  simp [acceptRide, hd, hon, hr, hnr]

/-- C4 witness: on the concrete store with online driver d1 and requested
ride r1, the happy-path conjunct of the case analysis applies. -/
theorem acceptRide_case_analysis_witness :
    findDriverById twoDriverStore "d1" = some (driverRow "d1" DriverStatus.online) ∧
    findRideById twoDriverStore "r1" = some requestedRide ∧
    (∃ r2, (acceptRide twoDriverStore "d1" "r1").1 = Except.ok r2 ∧
      r2.status = RideStatus.in_progress ∧
      r2.driver_id = some "d1" ∧
      findRideById (acceptRide twoDriverStore "d1" "r1").2 "r1" = some r2 ∧
      findDriverById (acceptRide twoDriverStore "d1" "r1").2 "d1"
        = some { driverRow "d1" DriverStatus.online with status := DriverStatus.busy }) :=
  ⟨by decide, by decide,
   (acceptRide_case_analysis twoDriverStore "d1" "r1").2.2.2.2
     (driverRow "d1" DriverStatus.online) requestedRide (by decide) rfl (by decide) rfl⟩

/-
  Claims C6 and C7 (cancelRide).
-/

/-- Evaluating cancelRide on the success path when no driver is assigned. -/
theorem cancelRide_success_eq_none (s : Store) (uid rid : String) (r : Ride)
    (hr : findRideById s rid = some r) (hown : r.user_id = uid)
    (hst : r.status = RideStatus.requested ∨ r.status = RideStatus.in_progress)
    (hdid : r.driver_id = none) :
    cancelRide s uid rid =
      (Except.ok (applyRideUpdate RideStatus.canceled none r),
       ridesUpdated s rid RideStatus.canceled none) := by
  have hne : ¬ (r.status ≠ RideStatus.requested ∧ r.status ≠ RideStatus.in_progress) := by
    rcases hst with h | h <;> simp [h]
  have hupd := updateRideStatus_found s rid RideStatus.canceled none r hr
  simp [cancelRide, hr, hown, hne, hupd, hdid]

/-- Evaluating cancelRide on the success path when a driver is assigned: the
ride is canceled and, best-effort, the driver is set back to online. -/
theorem cancelRide_success_eq_some (s : Store) (uid rid did : String) (r : Ride)
    (hr : findRideById s rid = some r) (hown : r.user_id = uid)
    (hst : r.status = RideStatus.requested ∨ r.status = RideStatus.in_progress)
    (hdid : r.driver_id = some did) :
    cancelRide s uid rid =
      (Except.ok (applyRideUpdate RideStatus.canceled none r),
       (updateDriverStatus (ridesUpdated s rid RideStatus.canceled none)
          did DriverStatus.online).2) := by
  have hne : ¬ (r.status ≠ RideStatus.requested ∧ r.status ≠ RideStatus.in_progress) := by
    rcases hst with h | h <;> simp [h]
  have hupd := updateRideStatus_found s rid RideStatus.canceled none r hr
  simp [cancelRide, hr, hown, hne, hupd, hdid]

/-- C6: cancelRide fails NOT_FOUND when the ride is absent, FORBIDDEN when
the requesting rider does not own the ride — whatever the status — and
BAD_REQUEST when the owner cancels a completed or canceled ride; in each
failure case the returned store is the input store, so every ride field and
every driver record is unchanged. -/
theorem cancelRide_failure_cases (s : Store) (uid rid : String) :
    (findRideById s rid = none →
      cancelRide s uid rid = (Except.error ErrorType.NOT_FOUND, s)) ∧
    (∀ r, findRideById s rid = some r → r.user_id ≠ uid →
      cancelRide s uid rid = (Except.error ErrorType.FORBIDDEN, s)) ∧
    (∀ r, findRideById s rid = some r → r.user_id = uid →
      (r.status = RideStatus.completed ∨ r.status = RideStatus.canceled) →
      cancelRide s uid rid = (Except.error ErrorType.BAD_REQUEST, s)) := by
  refine ⟨fun h => ?_, fun r hr hno => ?_, fun r hr hown hst => ?_⟩
  · simp [cancelRide, h]
  · simp [cancelRide, hr, hno]
  · have h1 : r.status ≠ RideStatus.requested := by rcases hst with h | h <;> simp [h]
    have h2 : r.status ≠ RideStatus.in_progress := by rcases hst with h | h <;> simp [h]
    simp [cancelRide, hr, hown, h1, h2]

/-- C6 witness: canceling the in_progress ride of claimedRideStore under the
wrong rider u9 fails FORBIDDEN and leaves the store unchanged. -/
theorem cancelRide_failure_cases_witness :
    findRideById claimedRideStore "r1" = some inProgressRide ∧
    cancelRide claimedRideStore "u9" "r1"
      = (Except.error ErrorType.FORBIDDEN, claimedRideStore) :=
  ⟨by decide,
   (cancelRide_failure_cases claimedRideStore "u9" "r1").2.1 inProgressRide
     (by decide) (by decide)⟩

/-- C7: when the owning rider cancels a requested or in_progress ride, the
stored ride becomes canceled (its driver assignment untouched), and if a
driver was assigned and exists, that driver is stored as online again. -/
theorem cancelRide_success_spec (s : Store) (uid rid : String) (r : Ride)
    (hr : findRideById s rid = some r) (hown : r.user_id = uid)
    (hst : r.status = RideStatus.requested ∨ r.status = RideStatus.in_progress) :
    (cancelRide s uid rid).1 = Except.ok (applyRideUpdate RideStatus.canceled none r) ∧
    findRideById (cancelRide s uid rid).2 rid
      = some (applyRideUpdate RideStatus.canceled none r) ∧
    (applyRideUpdate RideStatus.canceled none r).status = RideStatus.canceled ∧
    (applyRideUpdate RideStatus.canceled none r).driver_id = r.driver_id ∧
    (∀ did d, r.driver_id = some did → findDriverById s did = some d →
      findDriverById (cancelRide s uid rid).2 did
        = some { d with status := DriverStatus.online }) := by
  cases hdid : r.driver_id with
  | none =>
    rw [cancelRide_success_eq_none s uid rid r hr hown hst hdid]
    refine ⟨rfl, ?_, rfl, by simp [applyRideUpdate, hdid], ?_⟩
    · exact findRide_ridesUpdated_self s rid RideStatus.canceled none r hr
    · intro did d hcontra
      exact absurd hcontra (by simp)
  | some did0 =>
    rw [cancelRide_success_eq_some s uid rid did0 r hr hown hst hdid]
    have hd1 : ∀ d, findDriverById s did0 = some d →
        findDriverById (ridesUpdated s rid RideStatus.canceled none) did0 = some d :=
      fun d h => h
    refine ⟨rfl, ?_, rfl, by simp [applyRideUpdate, hdid], ?_⟩
    · rw [findRide_after_updateDriver]
      exact findRide_ridesUpdated_self s rid RideStatus.canceled none r hr
    · intro did d hsome hd
      have heq : did = did0 := (Option.some.inj hsome).symm
      subst heq
      rw [updateDriverStatus_found _ did DriverStatus.online d (hd1 d hd)]
      exact findDriver_driversUpdated_self _ did DriverStatus.online d (hd1 d hd)

/-- C7 witness: the owner u1 cancels the in_progress ride r1 assigned to the
existing driver d1; the stored ride becomes canceled and d1 becomes online. -/
theorem cancelRide_success_spec_witness :
    findRideById claimedRideStore "r1" = some inProgressRide ∧
    inProgressRide.driver_id = some "d1" ∧
    findRideById (cancelRide claimedRideStore "u1" "r1").2 "r1"
      = some (applyRideUpdate RideStatus.canceled none inProgressRide) ∧
    findDriverById (cancelRide claimedRideStore "u1" "r1").2 "d1"
      = some { driverRow "d1" DriverStatus.busy with status := DriverStatus.online } :=
  ⟨by decide, by decide,
   (cancelRide_success_spec claimedRideStore "u1" "r1" inProgressRide
     (by decide) rfl (Or.inr rfl)).2.1,
   (cancelRide_success_spec claimedRideStore "u1" "r1" inProgressRide
     (by decide) rfl (Or.inr rfl)).2.2.2.2 "d1" (driverRow "d1" DriverStatus.busy)
     rfl (by decide)⟩

/-
  Claim C1.
-/

/-- C1 counterexample: from a store with one requested ride r1 and two online
drivers d1 and d2, interleave two acceptRide calls at database-operation
granularity: both calls pass their status checks against the committed store
before either writes, the first call then updates, writes its driver row and
commits, and the second call does the same afterwards — its ride UPDATE still
matches (the WHERE clause checks ride_id only), so BOTH calls succeed, and the
committed ride ends in_progress assigned to d2 while d1 is busy yet owns
nothing.  The schedule is lock-consistent: no call touches the ride row
between the other call's ride UPDATE and its commit.  This refutes the claim
that exactly one of two concurrent acceptances can succeed. -/
theorem acceptRide_concurrent_both_succeed :
    (runSched twoDriverStore (startCall "d1" "r1") (startCall "d2" "r1")
      [true, true, false, false, true, true, true, false, false, false]).2.1.succeeded
        = true ∧
    (runSched twoDriverStore (startCall "d1" "r1") (startCall "d2" "r1")
      [true, true, false, false, true, true, true, false, false, false]).2.2.succeeded
        = true ∧
    ((runSched twoDriverStore (startCall "d1" "r1") (startCall "d2" "r1")
      [true, true, false, false, true, true, true, false, false, false]).1.rides.map
        (fun r => (r.status, r.driver_id))) = [(RideStatus.in_progress, some "d2")] ∧
    ((runSched twoDriverStore (startCall "d1" "r1") (startCall "d2" "r1")
      [true, true, false, false, true, true, true, false, false, false]).1.drivers.map
        (fun d => d.status)) = [DriverStatus.busy, DriverStatus.busy] := by
  decide

/-- C1 amended: exclusivity does hold for non-interleaved executions — when
the second acceptRide starts after the first has finished, the first succeeds,
the second fails BAD_REQUEST with the store unchanged, and the ride is left
in_progress assigned to the first driver alone. -/
theorem acceptRide_sequential_exclusive (s : Store) (did1 did2 rid : String)
    (d1 d2 : Driver) (r : Ride)
    (hd1 : findDriverById s did1 = some d1) (h1on : d1.status = DriverStatus.online)
    (hd2 : findDriverById s did2 = some d2) (h2on : d2.status = DriverStatus.online)
    (hne : did2 ≠ did1)
    (hr : findRideById s rid = some r) (hreq : r.status = RideStatus.requested) :
    (acceptRide s did1 rid).1
      = Except.ok (applyRideUpdate RideStatus.in_progress (some (some did1)) r) ∧
    (acceptRide (acceptRide s did1 rid).2 did2 rid).1
      = Except.error ErrorType.BAD_REQUEST ∧
    (acceptRide (acceptRide s did1 rid).2 did2 rid).2 = (acceptRide s did1 rid).2 ∧
    findRideById (acceptRide (acceptRide s did1 rid).2 did2 rid).2 rid
      = some (applyRideUpdate RideStatus.in_progress (some (some did1)) r) := by
  have h1 := acceptRide_success_eq s did1 rid d1 r hd1 h1on hr hreq
  have hd2a : findDriverById (acceptRide s did1 rid).2 did2 = some d2 := by
    rw [h1, findDriver_driversUpdated_other _ did1 did2 _ hne, findDriver_ridesUpdated]
    exact hd2
  have hr2 : findRideById (acceptRide s did1 rid).2 rid
      = some (applyRideUpdate RideStatus.in_progress (some (some did1)) r) := by
    rw [h1, findRide_driversUpdated]
    exact findRide_ridesUpdated_self s rid RideStatus.in_progress (some (some did1)) r hr
  have hnreq : (applyRideUpdate RideStatus.in_progress (some (some did1)) r).status
      ≠ RideStatus.requested := by
    simp [applyRideUpdate]
  have h2 := acceptRide_badRequest_ride (acceptRide s did1 rid).2 did2 rid d2
    (applyRideUpdate RideStatus.in_progress (some (some did1)) r) hd2a h2on hr2 hnreq
  refine ⟨by rw [h1], by rw [h2], by rw [h2], by rw [h2]; exact hr2⟩

/-- C1 amended, witness: the two sequential calls on the concrete store with
drivers d1 and d2 and requested ride r1. -/
theorem acceptRide_sequential_exclusive_witness :
    findRideById twoDriverStore "r1" = some requestedRide ∧
    (acceptRide twoDriverStore "d1" "r1").1
      = Except.ok (applyRideUpdate RideStatus.in_progress (some (some "d1")) requestedRide) ∧
    (acceptRide (acceptRide twoDriverStore "d1" "r1").2 "d2" "r1").1
      = Except.error ErrorType.BAD_REQUEST :=
  have h := acceptRide_sequential_exclusive twoDriverStore "d1" "d2" "r1"
    (driverRow "d1" DriverStatus.online) (driverRow "d2" DriverStatus.online)
    requestedRide (by decide) rfl (by decide) rfl (by decide) (by decide) rfl
  ⟨by decide, h.1, h.2.1⟩

/-
  Claim C3.
-/

/-- C3: running a single acceptRide call up to and including its fourth
database operation (the driver-status write), before the transaction commits:
the committed store already shows driver d1 as busy while the committed ride
row is still requested and unassigned — the driver write was applied outside
transaction t, because driverDataAccess.updateDriverStatus silently drops the
transaction argument that driverService.acceptRide passes with its
WITHIN-TRANSACTION comment.  A rollback at this point would strand the driver
as busy, contradicting the claim that both writes sit in one transaction. -/
theorem acceptRide_driver_write_escapes_transaction :
    ((runSched twoDriverStore (startCall "d1" "r1") (startCall "d2" "r1")
      [true, true, true, true]).1.drivers.map (fun d => (d.driver_id, d.status)))
        = [("d1", DriverStatus.busy), ("d2", DriverStatus.online)] ∧
    ((runSched twoDriverStore (startCall "d1" "r1") (startCall "d2" "r1")
      [true, true, true, true]).1.rides.map (fun r => (r.status, r.driver_id)))
        = [(RideStatus.requested, none)] ∧
    (runSched twoDriverStore (startCall "d1" "r1") (startCall "d2" "r1")
      [true, true, true, true]).2.1.phase
        = Phase.driverUpdated
            { requestedRide with status := RideStatus.in_progress, driver_id := some "d1" } := by
  decide

/-- Sanity check tying the two renderings of driverService.acceptRide
together: a single call run alone through the interleaving machine (five
database operations, no competitor) finishes with the same result and the
same committed store as the sequential function. -/
theorem machine_agrees_with_acceptRide :
    (runSched twoDriverStore (startCall "d1" "r1") (startCall "d2" "r1")
        [true, true, true, true, true]).1
      = (acceptRide twoDriverStore "d1" "r1").2 ∧
    (runSched twoDriverStore (startCall "d1" "r1") (startCall "d2" "r1")
        [true, true, true, true, true]).2.1.phase
      = Phase.finished (acceptRide twoDriverStore "d1" "r1").1 := by
  decide

/-
  Reachability machinery for the state invariants (C5, C10).
-/

theorem updateRideStatus_store_cases (s : Store) (rid : String) (st : RideStatus)
    (dv : Option (Option String)) :
    (updateRideStatus s rid st dv).2 = s ∨
    (updateRideStatus s rid st dv).2 = ridesUpdated s rid st dv := by
  unfold updateRideStatus
  split
  · right; rfl
  · left; rfl

theorem acceptRide_rides_cases (s : Store) (did rid : String) :
    (acceptRide s did rid).2.rides = s.rides ∨
    (acceptRide s did rid).2.rides
      = (ridesUpdated s rid RideStatus.in_progress (some (some did))).rides := by
  unfold acceptRide
  split
  · left; rfl
  · split
    · left; rfl
    · split
      · left; rfl
      · split
        · left; rfl
        · split
          · left; rfl
          · rename_i updatedRide s1 heq
            split
            · left; rfl
            · rename_i d2 s2 heq2
              have hs1 : s1 = (updateRideStatus s rid RideStatus.in_progress (some (some did))).2 := by
                rw [heq]
              have hs2 : s2 = (updateDriverStatus s1 did DriverStatus.busy).2 := by
                rw [heq2]
              rcases updateRideStatus_store_cases s rid RideStatus.in_progress (some (some did))
                with hc | hc
              · left
                rw [hs2, updateDriverStatus_rides, hs1, hc]
              · right
                rw [hs2, updateDriverStatus_rides, hs1, hc]

theorem cancelRide_rides_cases (s : Store) (uid rid : String) :
    (cancelRide s uid rid).2.rides = s.rides ∨
    (cancelRide s uid rid).2.rides = (ridesUpdated s rid RideStatus.canceled none).rides := by
  unfold cancelRide
  split
  · left; rfl
  · split
    · left; rfl
    · split
      · left; rfl
      · split
        · rename_i s1 heq
          have hs1 : s1 = (updateRideStatus s rid RideStatus.canceled none).2 := by
            rw [heq]
          rcases updateRideStatus_store_cases s rid RideStatus.canceled none with hc | hc
          · left; rw [hs1, hc]
          · right; rw [hs1, hc]
        · rename_i updatedRide s1 heq
          have hs1 : s1 = (updateRideStatus s rid RideStatus.canceled none).2 := by
            rw [heq]
          split
          · rename_i did hdid
            rcases updateRideStatus_store_cases s rid RideStatus.canceled none with hc | hc
            · left; rw [updateDriverStatus_rides, hs1, hc]
            · right; rw [updateDriverStatus_rides, hs1, hc]
          · rcases updateRideStatus_store_cases s rid RideStatus.canceled none with hc | hc
            · left; rw [hs1, hc]
            · right; rw [hs1, hc]

theorem registerDriver_rides (s : Store) (n e ph lic pw id : String) (now : Nat) :
    (registerDriver s n e ph lic pw id now).2.rides = s.rides := by
  unfold registerDriver
  split <;> rfl

theorem updateDriverStatusService_rides (s : Store) (did : String) (st : DriverStatus) :
    (updateDriverStatusService s did st).2.rides = s.rides := by
  have h := updateDriverStatus_rides s did st
  unfold updateDriverStatusService
  rcases hu : updateDriverStatus s did st with ⟨res, s1⟩
  rw [hu] at h
  cases res <;> simpa using h

theorem mem_ridesUpdated (s : Store) (rid : String) (st : RideStatus)
    (dv : Option (Option String)) (r : Ride) (h : r ∈ (ridesUpdated s rid st dv).rides) :
    r ∈ s.rides ∨ ∃ r0 ∈ s.rides, r = applyRideUpdate st dv r0 := by
  simp only [ridesUpdated, List.mem_map] at h
  rcases h with ⟨r0, hm, he⟩
  by_cases hid : (r0.ride_id == rid) = true
  · right; exact ⟨r0, hm, by rw [← he, if_pos hid]⟩
  · left; rw [← he, if_neg hid]; exact hm

/-- Every ride present after one service operation is either an untouched
old row, a freshly created requested row, an old row claimed as in_progress
by some driver, or an old row canceled with its driver assignment kept. -/
theorem mem_applyOp_rides (s : Store) (o : Op) (r : Ride) (h : r ∈ (applyOp s o).rides) :
    r ∈ s.rides ∨
    (∃ uid p dp fare id now, r = newRideRow uid p dp fare id now) ∨
    (∃ did, ∃ r0 ∈ s.rides, r = applyRideUpdate RideStatus.in_progress (some (some did)) r0) ∨
    (∃ r0 ∈ s.rides, r = applyRideUpdate RideStatus.canceled none r0) := by
  cases o with
  | requestRide u p dp q id now =>
    simp only [applyOp, requestRide, createRideRequest] at h
    rcases List.mem_append.mp h with hm | hm
    · exact Or.inl hm
    · right; left
      exact ⟨u, p, dp, calculateFare q, id, now, by simpa using hm⟩
  | getUserRideHistory _ => exact Or.inl h
  | cancelRide u rid =>
    rcases cancelRide_rides_cases s u rid with hc | hc
    · simp only [applyOp] at h
      rw [hc] at h
      exact Or.inl h
    · simp only [applyOp] at h
      rw [hc] at h
      rcases mem_ridesUpdated s rid RideStatus.canceled none r h with hm | ⟨r0, hm, he⟩
      · exact Or.inl hm
      · exact Or.inr (Or.inr (Or.inr ⟨r0, hm, he⟩))
  | acceptRide did rid =>
    rcases acceptRide_rides_cases s did rid with hc | hc
    · simp only [applyOp] at h
      rw [hc] at h
      exact Or.inl h
    · simp only [applyOp] at h
      rw [hc] at h
      rcases mem_ridesUpdated s rid RideStatus.in_progress (some (some did)) r h
        with hm | ⟨r0, hm, he⟩
      · exact Or.inl hm
      · exact Or.inr (Or.inr (Or.inl ⟨did, r0, hm, he⟩))
  | registerDriver n e ph lic pw id now =>
    simp only [applyOp] at h
    rw [registerDriver_rides] at h
    exact Or.inl h
  | updateDriverStatus did st =>
    simp only [applyOp] at h
    rw [updateDriverStatusService_rides] at h
    exact Or.inl h

/-- A per-ride predicate that holds for fresh requested rows and is preserved
by the claim and cancel row updates holds for every ride in every reachable
state. -/
theorem foldl_rides_inv (P : Ride → Prop)
    (hnew : ∀ uid p dp fare id now, P (newRideRow uid p dp fare id now))
    (hacc : ∀ did r0, P r0 → P (applyRideUpdate RideStatus.in_progress (some (some did)) r0))
    (hcan : ∀ r0, P r0 → P (applyRideUpdate RideStatus.canceled none r0)) :
    ∀ (ops : List Op) (s : Store), (∀ r ∈ s.rides, P r) →
      ∀ r ∈ (ops.foldl applyOp s).rides, P r := by
  intro ops
  induction ops with
  | nil => intro s hs; simpa using hs
  | cons o t ih =>
    intro s hs
    apply ih
    intro r hr
    rcases mem_applyOp_rides s o r hr with hm | ⟨u, p, dp, f, id, now, he⟩
      | ⟨did, r0, hm, he⟩ | ⟨r0, hm, he⟩
    · exact hs r hm
    · rw [he]; exact hnew u p dp f id now
    · rw [he]; exact hacc did r0 (hs r0 hm)
    · rw [he]; exact hcan r0 (hs r0 hm)

/-
  Claim C5.
-/

/-- C5 counterexample: after the concrete trace register driver, go online,
request ride, accept, cancel — all through the public service operations —
the single stored ride is canceled while still carrying driver_id d1
(cancelRide never clears the assignment), so its driver_id is non-null while
its status is neither in_progress nor completed, and the ride was canceled
after, not before, a driver was assigned — refuting the claimed iff. -/
theorem ride_driver_iff_counterexample :
    ((runOps acceptThenCancelOps).rides.map (fun r => (r.status, r.driver_id)))
      = [(RideStatus.canceled, some "d1")] ∧
    ¬ (∀ r ∈ (runOps acceptThenCancelOps).rides,
        (r.driver_id ≠ none ↔
          (r.status = RideStatus.in_progress ∨ r.status = RideStatus.completed))) := by
  decide

/-- C5 amended: in every reachable state, a requested ride has driver_id
null and an in_progress or completed ride has driver_id non-null; a canceled
ride may carry either a null driver_id (canceled before acceptance) or the
assigned driver (canceled after acceptance, since cancelRide keeps the
assignment). -/
theorem reachable_rideDriverInv (ops : List Op) :
    ∀ r ∈ (runOps ops).rides, rideDriverInv r := by
  apply foldl_rides_inv rideDriverInv ?hnew ?hacc ?hcan ops emptyStore
  case hnew => intro uid p dp fare id now; simp [rideDriverInv, newRideRow]
  case hacc => intro did r0 _; simp [rideDriverInv, applyRideUpdate]
  case hcan => intro r0 _; simp [rideDriverInv, applyRideUpdate]
  · intro r hr
    simp [emptyStore] at hr

/-- Evaluation of the concrete trace: its final rides table holds exactly the
canceled ride that still carries driver d1. -/
theorem runOps_rides_eval :
    (runOps acceptThenCancelOps).rides = [canceledAssignedRide] := by
  with_unfolding_all rfl

/-- C5 amended, witness: the canceled-after-assignment ride reached by the
concrete trace satisfies the amended invariant. -/
theorem reachable_rideDriverInv_witness :
    canceledAssignedRide ∈ (runOps acceptThenCancelOps).rides ∧
    rideDriverInv canceledAssignedRide :=
  ⟨by rw [runOps_rides_eval]; exact List.mem_singleton.mpr rfl,
   reachable_rideDriverInv acceptThenCancelOps canceledAssignedRide
     (by rw [runOps_rides_eval]; exact List.mem_singleton.mpr rfl)⟩

/-
  Claim C10.
-/

/-- C10: no public operation ever writes status completed or a non-null
end_time: in every state reachable from the empty store every ride has a
status other than completed and a null end_time — the in_progress to
completed transition of the specified state machine is unreachable through
the exposed operations. -/
theorem reachable_no_completed (ops : List Op) :
    ∀ r ∈ (runOps ops).rides,
      r.status ≠ RideStatus.completed ∧ r.end_time = none := by
  apply foldl_rides_inv (fun r => r.status ≠ RideStatus.completed ∧ r.end_time = none)
    ?hnew ?hacc ?hcan ops emptyStore
  case hnew => intro uid p dp fare id now; simp [newRideRow]
  case hacc => intro did r0 h0; exact ⟨by simp [applyRideUpdate], h0.2⟩
  case hcan => intro r0 h0; exact ⟨by simp [applyRideUpdate], h0.2⟩
  · intro r hr
    simp [emptyStore] at hr

/-- C10 witness: the ride reached by the concrete trace — requested, accepted
and canceled — is not completed and has a null end_time. -/
theorem reachable_no_completed_witness :
    canceledAssignedRide ∈ (runOps acceptThenCancelOps).rides ∧
    canceledAssignedRide.status ≠ RideStatus.completed ∧
    canceledAssignedRide.end_time = none :=
  ⟨by rw [runOps_rides_eval]; exact List.mem_singleton.mpr rfl,
   reachable_no_completed acceptThenCancelOps canceledAssignedRide
     (by rw [runOps_rides_eval]; exact List.mem_singleton.mpr rfl)⟩

/-
  Claim C8.
-/

/-- The fare is positive for every distance the placeholder model can
produce (Math.random() * 10 + 1 is at least 1). -/
theorem calculateFare_pos (d : ℚ) (h : 1 ≤ d) : 0 < calculateFare d := by
  unfold calculateFare
  have hz : (700 : ℤ) ≤ round ((5 + 2 * d) * 100) := by
    rw [round_eq]
    exact Int.le_floor.mpr (by push_cast; linarith)
  have hq : (0 : ℚ) < ((round ((5 + 2 * d) * 100) : ℤ) : ℚ) := by
    have h0 : (0 : ℤ) < round ((5 + 2 * d) * 100) := lt_of_lt_of_le (by norm_num) hz
    exact_mod_cast h0
  exact div_pos hq (by norm_num)

/-- C8: requestRide appends exactly one new ride carrying the given rider,
pickup and dropoff, status requested, no driver, and the fare computed as
base 5.0 plus 2.0 per km of the estimated distance (rounded to the two
decimal places of the DECIMAL(10,2) column); for every distance the
placeholder can produce the fare is strictly positive. -/
theorem requestRide_spec (s : Store) (uid p dp : String) (dist : ℚ)
    (id : String) (now : Nat) :
    (requestRide s uid p dp dist id now).1
      = Except.ok (newRideRow uid p dp (calculateFare dist) id now) ∧
    (requestRide s uid p dp dist id now).2.rides
      = s.rides ++ [newRideRow uid p dp (calculateFare dist) id now] ∧
    (requestRide s uid p dp dist id now).2.drivers = s.drivers ∧
    (newRideRow uid p dp (calculateFare dist) id now).user_id = uid ∧
    (newRideRow uid p dp (calculateFare dist) id now).pickup_location = p ∧
    (newRideRow uid p dp (calculateFare dist) id now).dropoff_location = dp ∧
    (newRideRow uid p dp (calculateFare dist) id now).status = RideStatus.requested ∧
    (newRideRow uid p dp (calculateFare dist) id now).driver_id = none ∧
    (newRideRow uid p dp (calculateFare dist) id now).fare = calculateFare dist ∧
    (1 ≤ dist → 0 < calculateFare dist) :=
  ⟨rfl, rfl, rfl, rfl, rfl, rfl, rfl, rfl, rfl, fun h => calculateFare_pos dist h⟩

/-- C8 witness: a concrete request with distance 2 yields fare 9 and the
expected row. -/
theorem requestRide_spec_witness :
    (1 : ℚ) ≤ 2 ∧ 0 < calculateFare 2 ∧
    (requestRide emptyStore "u1" "A" "B" 2 "r1" 1).1
      = Except.ok (newRideRow "u1" "A" "B" (calculateFare 2) "r1" 1) :=
  ⟨by norm_num,
   (requestRide_spec emptyStore "u1" "A" "B" 2 "r1" 1).2.2.2.2.2.2.2.2.2 (by norm_num),
   (requestRide_spec emptyStore "u1" "A" "B" 2 "r1" 1).1⟩

/-
  Claim C9.
-/

/-- C9: getUserRideHistory returns exactly the rides owned by the rider (a
permutation of the filter of the rides table), sorted newest first by
created_at; a rider with no rides gets the empty list, not an error; and the
operation leaves the store untouched. -/
theorem getUserRideHistory_spec (s : Store) (uid : String) :
    List.Perm (getUserRideHistory s uid) (s.rides.filter (fun r => r.user_id == uid)) ∧
    (∀ r, r ∈ getUserRideHistory s uid ↔ r ∈ s.rides ∧ r.user_id = uid) ∧
    List.Sorted newerFirst (getUserRideHistory s uid) ∧
    ((∀ r ∈ s.rides, r.user_id ≠ uid) → getUserRideHistory s uid = []) ∧
    applyOp s (Op.getUserRideHistory uid) = s := by
  refine ⟨List.perm_insertionSort newerFirst _, ?_, List.sorted_insertionSort newerFirst _,
    ?_, rfl⟩
  · intro r
    unfold getUserRideHistory getUserRides
    rw [List.mem_insertionSort, List.mem_filter]
    simp
  · intro hnone
    have hfil : s.rides.filter (fun r => r.user_id == uid) = [] := by
      rw [List.filter_eq_nil_iff]
      intro a ha
      simpa using hnone a ha
    unfold getUserRideHistory getUserRides
    rw [hfil]
    rfl

/-- C9 witness: rider zz owns nothing in the concrete store, and the history
call returns the empty list with the store unchanged. -/
theorem getUserRideHistory_spec_witness :
    (∀ r ∈ claimedRideStore.rides, r.user_id ≠ "zz") ∧
    getUserRideHistory claimedRideStore "zz" = [] ∧
    applyOp claimedRideStore (Op.getUserRideHistory "zz") = claimedRideStore :=
  ⟨by decide,
   (getUserRideHistory_spec claimedRideStore "zz").2.2.2.1 (by decide),
   (getUserRideHistory_spec claimedRideStore "zz").2.2.2.2⟩

end RideBooking
